import Mathlib

/- Verification of the dental-product chatbot (chatbot_app.py): catalog
loading, record resolution, prompt construction, response caching and the
bounded conversation history, embedded shallowly and proved against the
specification's claims. -/

namespace Dientes

/-- A cell of the tabular dataset; `none` models a missing value (pandas NaN). -/
abbrev Cell := Option String

/-- One row of the dataset as pandas exposes it through `to_dict`: an
association list from column name to cell value. -/
abbrev Row := List (String × Cell)

/-- A parsed tabular dataset (pandas DataFrame): column names and rows.
CSV parsing itself is done by pandas, an external collaborator. -/
structure DataFrame where
  columns : List String
  rows : List Row
  deriving DecidableEq, Repr

/-- The required columns checked by `load_product_data` (line 43). -/
def required_columns : List String :=
  ["Descripción", "Instrucciones de Uso", "Ventajas", "Presentación"]

/-- `load_product_data` (lines 30-46) after pandas has parsed the CSV: the
column validation and the return of the dataframe. The raised `ValueError`
is modelled as `Except.error` carrying the message. -/
def load_product_data (df : DataFrame) : Except String DataFrame :=
  if required_columns.all (fun col => df.columns.contains col) then
    Except.ok df
  else
    Except.error "El archivo CSV no contiene todas las columnas requeridas"

/-- Generic matcher: does the pattern match a prefix of the subject, comparing
one pattern character against one subject character with `f`. -/
def matchesPrefixWith (f : Char → Char → Bool) : List Char → List Char → Bool
  | [], _ => true
  | _ :: _, [] => false
  | p :: ps, c :: cs => f p c && matchesPrefixWith f ps cs

/-- Generic search: does the pattern match starting at some position of the
subject (the semantics of `re.search`). -/
def searchWith (f : Char → Char → Bool) (pat : List Char) : List Char → Bool
  | [] => matchesPrefixWith f pat []
  | c :: cs => matchesPrefixWith f pat (c :: cs) || searchWith f pat cs

/-- One pattern character matching one subject character under `re.IGNORECASE`:
`.` matches any character, every other character matches literally up to case.
This models the fragment of Python regular expressions exercised here
(patterns made of literal characters and the `.` wildcard and no other
metacharacters). -/
def regexCharMatches (p c : Char) : Bool :=
  p = '.' || p.toLower = c.toLower

/-- `pandas.Series.str.contains(pat, case=False)` on one cell value: Python
`re.search(pat, s, re.IGNORECASE)` succeeding, for the modelled pattern
fragment. Note the selection string is used as a regular-expression pattern,
not as a literal. -/
def str_contains_regex (pat s : String) : Bool :=
  searchWith regexCharMatches pat.toList s.toList

/-- Case-insensitive literal substring containment: what the selection string
would mean if it were NOT treated as a regular expression. Spec-side notion,
used to compare against `str_contains_regex`. -/
def literalContainsCI (needle s : String) : Bool :=
  searchWith (fun p c => p.toLower = c.toLower) needle.toList s.toList

/-- One row of the boolean mask `data['Descripción'].str.contains(product_name,
case=False, na=False)` (line 64): a missing (NaN) description never matches
(`na=False`). -/
def rowMatches (product_name : String) (row : Row) : Bool :=
  match row.lookup "Descripción" with
  | some (some d) => str_contains_regex product_name d
  | _ => false

/-- `get_product_info` (lines 52-68): the first row whose description matches
the selection, as a dict; `None` when the filtered frame is empty. -/
def get_product_info (product_name : String) (data : DataFrame) : Option Row :=
  data.rows.find? (rowMatches product_name)

/-- The fixed system message sent with every generation request (line 90). -/
def system_message : String :=
  "Eres un asistente dental especializado y respondes siempre en español."

/-- Rendering of a cell inside a Python f-string: a missing value (a float
NaN in pandas) prints as "nan". -/
def renderCell : Cell → String
  | some s => s
  | none => "nan"

/-- The user prompt built at lines 75-84: header, the four labeled sections,
the user question, the answer marker, one f-string concatenation. `none`
models the `KeyError` raised when `product_info` lacks one of the four keys
(that access sits outside the `try` block). -/
def build_prompt (product_info : Row) (user_question : String) : Option String :=
  match product_info.lookup "Descripción", product_info.lookup "Instrucciones de Uso",
        product_info.lookup "Ventajas", product_info.lookup "Presentación" with
  | some d, some i, some v, some pr =>
      some ("Eres un asistente dental especializado que ayuda a responder preguntas sobre productos dentales. Usa únicamente la siguiente información para tu respuesta en español.\n\n**Descripción del Producto**: "
        ++ renderCell d
        ++ "\n**Instrucciones de Uso**: " ++ renderCell i
        ++ "\n**Ventajas**: " ++ renderCell v
        ++ "\n**Presentación**: " ++ renderCell pr
        ++ "\n\n**Pregunta del Usuario**: " ++ user_question
        ++ "\n**Respuesta**:")
  | _, _, _, _ => none

/-- A request to the generative backend: the arguments of
`client.chat.completions.create` (lines 87-95). The sampling temperature 0.7
is recorded in tenths to stay in exact arithmetic. -/
structure ChatRequest where
  system : String
  user : String
  max_tokens : Nat
  temperature_tenths : Nat
  deriving DecidableEq, Repr

/-- How `cached_generate_chatbot_response` packages a prompt into a request:
fixed system message, max_tokens=500, temperature=0.7. -/
def mkChatRequest (prompt : String) : ChatRequest :=
  { system := system_message, user := prompt, max_tokens := 500, temperature_tenths := 7 }

/-- The external generative backend: produces text or fails with a cause
(timeout, transport error, malformed response, quota/auth), modelled as
`Except` since any of these surfaces as a Python exception. -/
abbrev Backend := ChatRequest → Except String String

/-- The `st.cache_data` key for `cached_generate_chatbot_response`: the values
of its arguments `(product_info, user_question)`. -/
abbrev CacheKey := Row × String

/-- The `st.cache_data` store for `cached_generate_chatbot_response`, newest
entry first. -/
abbrev Cache := List (CacheKey × String)

/-- Lookup in the `st.cache_data` store by key value. -/
def cacheLookup : Cache → CacheKey → Option String
  | [], _ => none
  | (k, v) :: rest, key => if k = key then some v else cacheLookup rest key

/-- Python `str.strip()` as applied to the generated text at line 96: remove
leading and trailing whitespace. -/
def pyStrip (s : String) : String :=
  String.mk (((s.toList.dropWhile Char.isWhitespace).reverse.dropWhile
    Char.isWhitespace).reverse)

/-- The string returned by the `except` branch at line 98. -/
def error_reply (e : String) : String :=
  "Ocurrió un error al procesar tu solicitud: " ++ e

/-- `cached_generate_chatbot_response` (lines 70-98) together with its
`@st.cache_data` decorator. On a hit the body does not run. On a miss the body
builds the prompt (a `KeyError` there, modelled `none`, propagates and nothing
is cached), calls the backend, turns any backend exception into `error_reply`,
and `st.cache_data` stores whatever the body returned — including the error
reply, because the `except` branch returns it normally. The `Nat` counts
backend invocations during the call. -/
def cached_generate_chatbot_response (product_info : Row) (user_question : String)
    (cache : Cache) (backend : Backend) : Option (String × Cache × Nat) :=
  match cacheLookup cache (product_info, user_question) with
  | some answer => some (answer, cache, 0)
  | none =>
    match build_prompt product_info user_question with
    | none => none
    | some prompt =>
      let reply :=
        match backend (mkChatRequest prompt) with
        | Except.ok text => pyStrip text
        | Except.error e => error_reply e
      some (reply, ((product_info, user_question), reply) :: cache, 1)

/-- One entry of `st.session_state['conversation']`: a (question, answer) pair. -/
abbrev ConversationEntry := String × String

/-- The conversation-history bound (line 158). -/
def MAX_HISTORY : Nat := 5

/-- Lines 157-160: after the button handler, if the history exceeds
`MAX_HISTORY`, `pop(0)` removes the single oldest entry. -/
def trim_history (conv : List ConversationEntry) : List ConversationEntry :=
  if MAX_HISTORY < conv.length then conv.drop 1 else conv

/-- One appended entry as one script run produces it: `append` at line 154
followed by the trimming step at lines 157-160. -/
def append_entry (conv : List ConversationEntry) (e : ConversationEntry) :
    List ConversationEntry :=
  trim_history (conv ++ [e])

/-- The session-scoped mutable state: the conversation history and the
`st.cache_data` store of `cached_generate_chatbot_response`. -/
structure SessionState where
  conversation : List ConversationEntry
  cache : Cache
  deriving DecidableEq, Repr

/-- The observable outcome of one press of "Obtener Respuesta". -/
inductive Outcome where
  | emptyWarning
  | notFound
  | answered
  | keyError
  deriving DecidableEq, Repr

/-- One press of "Obtener Respuesta" followed by the history-trimming step
(lines 144-160): empty-question check, record resolution, generation, history
append, trim. The `Nat` is the number of backend invocations during the run.
An uncaught `KeyError` (`Outcome.keyError`) aborts the script run before the
append and the trim. -/
def handle_submission (selected_product user_question : String)
    (product_data : DataFrame) (st : SessionState) (backend : Backend) :
    SessionState × Outcome × Nat :=
  if user_question = "" then
    ({ st with conversation := trim_history st.conversation }, Outcome.emptyWarning, 0)
  else
    match get_product_info selected_product product_data with
    | none => ({ st with conversation := trim_history st.conversation }, Outcome.notFound, 0)
    | some product_info =>
      match cached_generate_chatbot_response product_info user_question st.cache backend with
      | none => (st, Outcome.keyError, 0)
      | some (answer, cache2, calls) =>
        ({ conversation := trim_history (st.conversation ++ [(user_question, answer)]),
           cache := cache2 }, Outcome.answered, calls)

/- Concrete fixtures used by witnesses and counterexamples. -/

/-- A well-formed catalog row with all four required columns present. -/
def rowABC : Row :=
  [("Descripción", some "ABC floss: hilo dental"),
   ("Instrucciones de Uso", some "Usar a diario"),
   ("Ventajas", some "Fuerte"),
   ("Presentación", some "Rollo de 30m")]

/-- A one-row dataframe holding `rowABC`. -/
def dfABC : DataFrame :=
  { columns := required_columns, rows := [rowABC] }

/-- A backend that always succeeds with a fixed text. -/
def okBackend : Backend := fun _ => Except.ok "Una vez al día."

/-- A backend that always fails, e.g. with a quota error. -/
def failingBackend : Backend := fun _ => Except.error "RateLimitError"

/-- A row whose required column `Ventajas` holds a missing (NaN) value. -/
def rowMissingVentajas : Row :=
  [("Descripción", some "Cepillo X: cepillo suave"),
   ("Instrucciones de Uso", some "Usar dos veces al día"),
   ("Ventajas", none),
   ("Presentación", some "Caja")]

/-- A one-row dataframe whose single record misses a `Ventajas` value. -/
def dfMissingCell : DataFrame :=
  { columns := required_columns, rows := [rowMissingVentajas] }

/-- A dataframe missing the required `Ventajas` column altogether. -/
def dfNoVentajas : DataFrame :=
  { columns := ["Descripción", "Instrucciones de Uso", "Presentación"], rows := [] }

/-- A second catalog row whose description also contains "floss". -/
def rowABC2 : Row :=
  [("Descripción", some "abc floss plus: hilo reforzado"),
   ("Instrucciones de Uso", some "Usar con cuidado"),
   ("Ventajas", some "Más fuerte"),
   ("Presentación", some "Rollo de 50m")]

/-- A catalog with two records matching the selection "floss". -/
def dfTwoFloss : DataFrame :=
  { columns := required_columns, rows := [rowABC, rowABC2] }

/-- `find?` returns the head of the filtered list: the first match in order. -/
lemma find_eq_head_filter {α : Type} (p : α → Bool) (l : List α) :
    l.find? p = (l.filter p).head? := by
  induction l with
  | nil => rfl
  | cons a l ih =>
    by_cases h : p a
    · rw [List.find?_cons_of_pos _ h, List.filter_cons_of_pos h]
      rfl
    · rw [List.find?_cons_of_neg _ h, List.filter_cons_of_neg h, ih]

/-- C10: resolver matching is regex-based, not literal. The selection "a.c"
contains the regex metacharacter `.`; `get_product_info` resolves it to a
record whose description does not literally contain "a.c", even
case-insensitively. -/
theorem regex_not_literal_matching :
    get_product_info "a.c" dfABC = some rowABC ∧
    rowABC.lookup "Descripción" = some (some "ABC floss: hilo dental") ∧
    literalContainsCI "a.c" "ABC floss: hilo dental" = false :=
  ⟨rfl, rfl, rfl⟩

/-- C3 counterexample: a dataframe whose four required columns are present
but whose single record has a missing (NaN) value in `Ventajas` loads
successfully, so a record with an absent value in a required field is NOT
rejected at load time and is surfaced in the catalog store. -/
theorem load_accepts_missing_value :
    load_product_data dfMissingCell = Except.ok dfMissingCell ∧
    rowMissingVentajas ∈ dfMissingCell.rows ∧
    rowMissingVentajas.lookup "Ventajas" = some none :=
  ⟨rfl, by simp [dfMissingCell], rfl⟩

/-- C3 amended: load-time validation checks exactly that the four required
columns are present; it does not inspect cell values, so records with missing
values in required fields pass the load and reach runtime. -/
theorem load_validates_columns_only (df : DataFrame) :
    load_product_data df = Except.ok df ↔
      required_columns.all (fun col => df.columns.contains col) = true := by
  unfold load_product_data
  by_cases h : required_columns.all (fun col => df.columns.contains col) = true
  · simp [h]
  · simp [h]

/-- C7: loading a dataset that is missing any required column (for example
`Ventajas`) fails with the ValueError diagnostic, and no catalog value is
produced from that dataset. -/
theorem load_missing_column_fails (df : DataFrame) (col : String)
    (hreq : col ∈ required_columns) (hmiss : col ∉ df.columns) :
    load_product_data df
      = Except.error "El archivo CSV no contiene todas las columnas requeridas" ∧
    ∀ catalog, load_product_data df ≠ Except.ok catalog := by
  have hall : ¬ required_columns.all (fun c => df.columns.contains c) = true := by
    intro hall
    exact hmiss (List.mem_of_elem_eq_true (List.all_eq_true.mp hall col hreq))
  constructor
  · unfold load_product_data
    rw [if_neg hall]
  · intro catalog
    unfold load_product_data
    rw [if_neg hall]
    intro hx
    exact Except.noConfusion hx

/-- C7 witness: the concrete dataframe `dfNoVentajas` misses `Ventajas` and
its load fails with the diagnostic. -/
theorem load_missing_column_fails_witness :
    ("Ventajas" ∈ required_columns ∧ "Ventajas" ∉ dfNoVentajas.columns) ∧
    (load_product_data dfNoVentajas
        = Except.error "El archivo CSV no contiene todas las columnas requeridas" ∧
      ∀ catalog, load_product_data dfNoVentajas ≠ Except.ok catalog) :=
  ⟨⟨by decide, by decide⟩,
    load_missing_column_fails dfNoVentajas "Ventajas" (by decide) (by decide)⟩

/-- C6: on a well-formed dataframe (every row carries the `Descripción`
column) in which at least two records match the selection string,
`get_product_info` returns the first matching record in catalog order;
determinism across repeated calls is definitional since the resolver is a
pure function of its arguments. -/
theorem resolver_first_match (selected : String) (data : DataFrame)
    (_hwf : ∀ row ∈ data.rows, (row.lookup "Descripción").isSome = true)
    (hmulti : 2 ≤ (data.rows.filter (rowMatches selected)).length) :
    ∃ r, get_product_info selected data = some r ∧
      (data.rows.filter (rowMatches selected)).head? = some r := by
  unfold get_product_info
  rw [find_eq_head_filter]
  cases hf : data.rows.filter (rowMatches selected) with
  | nil => rw [hf] at hmulti; simp at hmulti
  | cons r rest => exact ⟨r, rfl, rfl⟩

/-- C6 witness: on the concrete two-match catalog `dfTwoFloss`, the resolver
returns the first matching record. -/
theorem resolver_first_match_witness :
    ((∀ row ∈ dfTwoFloss.rows, (row.lookup "Descripción").isSome = true) ∧
      2 ≤ (dfTwoFloss.rows.filter (rowMatches "floss")).length) ∧
    ∃ r, get_product_info "floss" dfTwoFloss = some r ∧
      (dfTwoFloss.rows.filter (rowMatches "floss")).head? = some r :=
  ⟨⟨by decide, by decide⟩,
    resolver_first_match "floss" dfTwoFloss (by decide) (by decide)⟩

/-- On a cache hit, the stored answer is returned with no backend call and no
cache change. -/
lemma generate_hit (product_info : Row) (user_question : String) (cache : Cache)
    (backend : Backend) (a : String)
    (hl : cacheLookup cache (product_info, user_question) = some a) :
    cached_generate_chatbot_response product_info user_question cache backend
      = some (a, cache, 0) := by
  unfold cached_generate_chatbot_response
  rw [hl]

/-- On a cache miss with a well-formed record, the body runs: one backend
call, and whatever the body returns (trimmed text or the error reply) is
stored under the key and returned. -/
lemma generate_miss (product_info : Row) (user_question : String) (cache : Cache)
    (backend : Backend) (prompt : String)
    (hl : cacheLookup cache (product_info, user_question) = none)
    (hp : build_prompt product_info user_question = some prompt) :
    cached_generate_chatbot_response product_info user_question cache backend =
      some ((match backend (mkChatRequest prompt) with
             | Except.ok text => pyStrip text
             | Except.error e => error_reply e),
        ((product_info, user_question),
          (match backend (mkChatRequest prompt) with
           | Except.ok text => pyStrip text
           | Except.error e => error_reply e)) :: cache, 1) := by
  unfold cached_generate_chatbot_response
  rw [hl, hp]

/-- On a cache miss with a record lacking one of the four keys, the KeyError
propagates and nothing is returned or cached. -/
lemma generate_keyerror (product_info : Row) (user_question : String) (cache : Cache)
    (backend : Backend)
    (hl : cacheLookup cache (product_info, user_question) = none)
    (hp : build_prompt product_info user_question = none) :
    cached_generate_chatbot_response product_info user_question cache backend = none := by
  unfold cached_generate_chatbot_response
  rw [hl, hp]

/-- C2: whenever a call to the cached answer operation returns, it has
invoked the backend at most once, and a second call with the same record
content and question text invokes the backend zero additional times and
returns the identical answer, leaving the cache unchanged. -/
theorem cache_correctness (product_info : Row) (user_question : String)
    (cache : Cache) (backend : Backend) (answer : String) (cache2 : Cache) (calls : Nat)
    (h : cached_generate_chatbot_response product_info user_question cache backend
          = some (answer, cache2, calls)) :
    calls ≤ 1 ∧
    cached_generate_chatbot_response product_info user_question cache2 backend
      = some (answer, cache2, 0) := by
  cases hl : cacheLookup cache (product_info, user_question) with
  | some a =>
    rw [generate_hit product_info user_question cache backend a hl] at h
    simp only [Option.some.injEq, Prod.mk.injEq] at h
    obtain ⟨ha, hc, hn⟩ := h
    subst ha
    subst hc
    subst hn
    exact ⟨Nat.zero_le 1, generate_hit product_info user_question cache backend a hl⟩
  | none =>
    cases hp : build_prompt product_info user_question with
    | none =>
      rw [generate_keyerror product_info user_question cache backend hl hp] at h
      exact Option.noConfusion h
    | some prompt =>
      rw [generate_miss product_info user_question cache backend prompt hl hp] at h
      simp only [Option.some.injEq, Prod.mk.injEq] at h
      obtain ⟨ha, hc, hn⟩ := h
      subst ha
      subst hc
      subst hn
      refine ⟨Nat.le_refl 1, ?_⟩
      exact generate_hit product_info user_question _ backend _ (by simp [cacheLookup])

/-- C2 witness: a concrete first call on an empty cache makes one backend
call; the repeat call is answered from the cache. -/
theorem cache_correctness_witness :
    cached_generate_chatbot_response rowABC "q2" [] okBackend
        = some ("Una vez al día.", [((rowABC, "q2"), "Una vez al día.")], 1) ∧
    (1 ≤ 1 ∧
      cached_generate_chatbot_response rowABC "q2"
          [((rowABC, "q2"), "Una vez al día.")] okBackend
        = some ("Una vez al día.", [((rowABC, "q2"), "Una vez al día.")], 0)) :=
  ⟨rfl, cache_correctness rowABC "q2" [] okBackend "Una vez al día."
    [((rowABC, "q2"), "Una vez al día.")] 1 rfl⟩

/-- C1 counterexample: with a failing backend, the first call on an empty
cache stores the failure reply under the (record, question) key, and the
subsequent call with the same inputs returns that failure text with ZERO
backend invocations — the backend is not attempted again, contradicting
cache non-poisoning. -/
theorem cache_poisoning_counterexample :
    cached_generate_chatbot_response rowABC "Pregunta" [] failingBackend
      = some (error_reply "RateLimitError",
          [((rowABC, "Pregunta"), error_reply "RateLimitError")], 1) ∧
    cached_generate_chatbot_response rowABC "Pregunta"
        [((rowABC, "Pregunta"), error_reply "RateLimitError")] failingBackend
      = some (error_reply "RateLimitError",
          [((rowABC, "Pregunta"), error_reply "RateLimitError")], 0) :=
  ⟨rfl, rfl⟩

/-- C1 amended: if the backend call fails, the failure reply IS stored in the
cache under that (record, question) key — the `except` branch returns it
normally and `st.cache_data` memoizes every normal return — so a subsequent
call with the same inputs returns the cached failure text without attempting
the backend again. -/
theorem failure_reply_is_cached (product_info : Row) (user_question : String)
    (cache : Cache) (backend : Backend) (prompt e : String)
    (hl : cacheLookup cache (product_info, user_question) = none)
    (hp : build_prompt product_info user_question = some prompt)
    (he : backend (mkChatRequest prompt) = Except.error e) :
    cached_generate_chatbot_response product_info user_question cache backend
      = some (error_reply e,
          ((product_info, user_question), error_reply e) :: cache, 1) ∧
    cached_generate_chatbot_response product_info user_question
        (((product_info, user_question), error_reply e) :: cache) backend
      = some (error_reply e,
          ((product_info, user_question), error_reply e) :: cache, 0) := by
  have h1 := generate_miss product_info user_question cache backend prompt hl hp
  rw [he] at h1
  refine ⟨h1, ?_⟩
  exact generate_hit product_info user_question _ backend _ (by simp [cacheLookup])

/-- C1 amended witness: the concrete failing backend poisons the cache and
the retry is short-circuited. -/
theorem failure_reply_is_cached_witness :
    (cacheLookup [] (rowABC, "Otra") = none ∧
      build_prompt rowABC "Otra" = some ((build_prompt rowABC "Otra").getD "") ∧
      failingBackend (mkChatRequest ((build_prompt rowABC "Otra").getD ""))
        = Except.error "RateLimitError") ∧
    (cached_generate_chatbot_response rowABC "Otra" [] failingBackend
        = some (error_reply "RateLimitError",
            [((rowABC, "Otra"), error_reply "RateLimitError")], 1) ∧
      cached_generate_chatbot_response rowABC "Otra"
          [((rowABC, "Otra"), error_reply "RateLimitError")] failingBackend
        = some (error_reply "RateLimitError",
            [((rowABC, "Otra"), error_reply "RateLimitError")], 0)) :=
  ⟨⟨rfl, rfl, rfl⟩,
    failure_reply_is_cached rowABC "Otra" [] failingBackend
      ((build_prompt rowABC "Otra").getD "") "RateLimitError" rfl rfl rfl⟩

/-- C8: on any backend failure at a cache miss, the answer operation does not
propagate the exception: it returns (as a normal value) a user-facing
diagnostic string that embeds the failure cause, after exactly one backend
attempt. -/
theorem generation_failure_diagnostic (product_info : Row) (user_question : String)
    (cache : Cache) (backend : Backend) (prompt e : String)
    (hl : cacheLookup cache (product_info, user_question) = none)
    (hp : build_prompt product_info user_question = some prompt)
    (he : backend (mkChatRequest prompt) = Except.error e) :
    ∃ cache2, cached_generate_chatbot_response product_info user_question cache backend
      = some ("Ocurrió un error al procesar tu solicitud: " ++ e, cache2, 1) := by
  have h1 := generate_miss product_info user_question cache backend prompt hl hp
  rw [he] at h1
  exact ⟨_, h1⟩

/-- C8 witness: a concrete quota failure is converted into the diagnostic
string naming the cause. -/
theorem generation_failure_diagnostic_witness :
    (cacheLookup [] (rowABC, "Duda") = none ∧
      build_prompt rowABC "Duda" = some ((build_prompt rowABC "Duda").getD "") ∧
      failingBackend (mkChatRequest ((build_prompt rowABC "Duda").getD ""))
        = Except.error "RateLimitError") ∧
    ∃ cache2, cached_generate_chatbot_response rowABC "Duda" [] failingBackend
      = some ("Ocurrió un error al procesar tu solicitud: " ++ "RateLimitError", cache2, 1) :=
  ⟨⟨rfl, rfl, rfl⟩,
    generation_failure_diagnostic rowABC "Duda" [] failingBackend
      ((build_prompt rowABC "Duda").getD "") "RateLimitError" rfl rfl rfl⟩

/-- A labeled section of the user prompt, as §4.2 of the spec describes it:
the bold label, the field value, a line break. -/
def labeled_section (label : String) (value : Cell) : String :=
  "**" ++ label ++ "**: " ++ renderCell value ++ "\n"

/-- The user prompt as the spec's words describe it: a fixed header, then the
labeled sections in the fixed field order Description, UsageInstructions,
Advantages, Presentation, then a blank line, the literal question and the
answer-prompt marker. Spec-side rendering, compared against `build_prompt`,
which is transcribed from the source. -/
def build_prompt_spec (d i v pr : Cell) (user_question : String) : String :=
  "Eres un asistente dental especializado que ayuda a responder preguntas sobre productos dentales. Usa únicamente la siguiente información para tu respuesta en español.\n\n"
    ++ labeled_section "Descripción del Producto" d
    ++ labeled_section "Instrucciones de Uso" i
    ++ labeled_section "Ventajas" v
    ++ labeled_section "Presentación" pr
    ++ "\n**Pregunta del Usuario**: " ++ user_question
    ++ "\n**Respuesta**:"

set_option maxRecDepth 8192 in
/-- C5: on any record carrying the four required fields, `build_prompt`
produces exactly the spec's rendering — labeled sections in the fixed field
order followed by the literal question and the answer marker — together with
the fixed system message in the request; and two calls on identical inputs
yield identical output. -/
theorem prompt_builder_correct (product_info : Row) (user_question : String)
    (d i v pr : Cell)
    (hd : product_info.lookup "Descripción" = some d)
    (hi : product_info.lookup "Instrucciones de Uso" = some i)
    (hv : product_info.lookup "Ventajas" = some v)
    (hpr : product_info.lookup "Presentación" = some pr) :
    (build_prompt product_info user_question
        = some (build_prompt_spec d i v pr user_question) ∧
      ∀ prompt, (mkChatRequest prompt).system = system_message) ∧
    ∀ info2 question2, info2 = product_info → question2 = user_question →
      build_prompt info2 question2 = build_prompt product_info user_question := by
  refine ⟨⟨?_, fun prompt => rfl⟩, ?_⟩
  · unfold build_prompt build_prompt_spec labeled_section
    rw [hd, hi, hv, hpr]
    simp only [Option.some.injEq]
    apply String.ext
    simp [String.data_append]
  · intro info2 question2 h2 h3
    rw [h2, h3]

/-- C5 witness: the concrete record `rowABC` renders to the spec's prompt. -/
theorem prompt_builder_correct_witness :
    (rowABC.lookup "Descripción" = some (some "ABC floss: hilo dental") ∧
      rowABC.lookup "Instrucciones de Uso" = some (some "Usar a diario") ∧
      rowABC.lookup "Ventajas" = some (some "Fuerte") ∧
      rowABC.lookup "Presentación" = some (some "Rollo de 30m")) ∧
    ((build_prompt rowABC "¿Con qué frecuencia?"
        = some (build_prompt_spec (some "ABC floss: hilo dental")
            (some "Usar a diario") (some "Fuerte") (some "Rollo de 30m")
            "¿Con qué frecuencia?") ∧
      ∀ prompt, (mkChatRequest prompt).system = system_message) ∧
    ∀ info2 question2, info2 = rowABC → question2 = "¿Con qué frecuencia?" →
      build_prompt info2 question2 = build_prompt rowABC "¿Con qué frecuencia?") :=
  ⟨⟨rfl, rfl, rfl, rfl⟩,
    prompt_builder_correct rowABC "¿Con qué frecuencia?"
      (some "ABC floss: hilo dental") (some "Usar a diario") (some "Fuerte")
      (some "Rollo de 30m") rfl rfl rfl rfl⟩

/-- Folding appends (each one followed by the trimming step, as each script
run performs it) over an empty history keeps exactly the last `MAX_HISTORY`
entries: the result is the suffix of the appended sequence. -/
lemma foldl_append_entry (es : List ConversationEntry) :
    es.foldl append_entry [] = es.drop (es.length - MAX_HISTORY) := by
  induction es using List.reverseRecOn with
  | nil => rfl
  | append_singleton es e ih =>
    rw [List.foldl_append, List.foldl_cons, List.foldl_nil, ih]
    unfold append_entry trim_history MAX_HISTORY
    by_cases hk : es.length < 5
    · have h0 : es.length - 5 = 0 := by omega
      have h0' : (es ++ [e]).length - 5 = 0 := by
        rw [List.length_append]
        simp only [List.length_cons, List.length_nil]
        omega
      have hcond : ¬ 5 < (es ++ [e]).length := by
        rw [List.length_append]
        simp only [List.length_cons, List.length_nil]
        omega
      rw [h0, h0', List.drop_zero, List.drop_zero, if_neg hcond]
    · push_neg at hk
      have hlen : (es.drop (es.length - 5)).length = 5 := by
        rw [List.length_drop]
        omega
      have hcond : 5 < (es.drop (es.length - 5) ++ [e]).length := by
        rw [List.length_append, hlen]
        simp
      rw [if_pos hcond]
      rw [List.drop_append_of_le_length (by rw [hlen]; omega)]
      rw [List.drop_drop]
      rw [List.drop_append_of_le_length
        (by rw [List.length_append]; simp only [List.length_cons, List.length_nil]; omega)]
      have harith : es.length - 5 + 1 = (es ++ [e]).length - 5 := by
        rw [List.length_append]
        simp only [List.length_cons, List.length_nil]
        omega
      rw [harith]

/-- C4: starting from an empty log, appending any N > 5 entries (each append
followed by the script's trimming step, bound 5) leaves exactly the last 5
appended entries, in their original relative insertion order — the suffix of
the appended sequence, oldest evicted first. -/
theorem bounded_history (es : List ConversationEntry) (h : 5 < es.length) :
    es.foldl append_entry [] = es.drop (es.length - 5) ∧
    (es.foldl append_entry []).length = 5 := by
  have hf := foldl_append_entry es
  unfold MAX_HISTORY at hf
  refine ⟨hf, ?_⟩
  rw [hf, List.length_drop]
  omega

/-- Six concrete (question, answer) entries appended in order. -/
def sixEntries : List ConversationEntry :=
  [("q1", "a1"), ("q2", "a2"), ("q3", "a3"), ("q4", "a4"), ("q5", "a5"), ("q6", "a6")]

/-- C4 witness: appending six concrete entries leaves the last five. -/
theorem bounded_history_witness :
    5 < sixEntries.length ∧
    (sixEntries.foldl append_entry [] = sixEntries.drop (sixEntries.length - 5) ∧
      (sixEntries.foldl append_entry []).length = 5) :=
  ⟨by decide, bounded_history sixEntries (by decide)⟩

/-- C9 counterexample: a submission whose question text is blank but not
empty (a single space) is NOT caught by the falsiness check
`if not user_question`: the resolver runs, the backend is invoked once, and
the conversation log is mutated — the error is not detected before the
backend call. -/
theorem blank_question_reaches_backend :
    handle_submission "ABC" " " dfABC { conversation := [], cache := [] } okBackend
      = ({ conversation := [(" ", "Una vez al día.")],
           cache := [((rowABC, " "), "Una vez al día.")] }, Outcome.answered, 1) := rfl

/-- C9 amended: only an EMPTY question text is detected and reported before
any backend call: for the empty question the run performs no resolver-based
generation, no backend call, no cache change and (whenever the history is
within its bound, as it is at the start of every reachable run) no
conversation-log mutation. Whitespace-only questions are not detected. -/
theorem empty_question_fail_fast (selected_product : String) (product_data : DataFrame)
    (st : SessionState) (backend : Backend)
    (hlen : st.conversation.length ≤ MAX_HISTORY) :
    handle_submission selected_product "" product_data st backend
      = (st, Outcome.emptyWarning, 0) := by
  unfold handle_submission trim_history
  rw [if_pos rfl]
  have hcond : ¬ MAX_HISTORY < st.conversation.length := by omega
  rw [if_neg hcond]

/-- C9 amended witness: the empty question on a concrete session leaves the
state untouched with zero backend calls. -/
theorem empty_question_fail_fast_witness :
    ({ conversation := [], cache := [] } : SessionState).conversation.length ≤ MAX_HISTORY ∧
    handle_submission "ABC" "" dfABC { conversation := [], cache := [] } okBackend
      = ({ conversation := [], cache := [] }, Outcome.emptyWarning, 0) :=
  ⟨by decide,
    empty_question_fail_fast "ABC" dfABC { conversation := [], cache := [] } okBackend
      (by decide)⟩

end Dientes
